import Mathlib

/-!
# Verification of `tolvera/mp/face_mesh.py` (class `MPFaceMesh`)

Shallow embedding of the face-mesh adapter: the external MediaPipe model is an
opaque function from frames to lists of faces (a face is its landmark list);
floating point is modelled by `ℚ`; the per-instance numpy arrays and the shared
state store `ctx.s.face_mesh` are total functions from (face index, landmark
index) to coordinate vectors; `detect` is explicit state passing; the taichi
`draw` kernel is modelled by the trace of `circle`/`line` primitives it emits.
-/

/-- A 3-component coordinate vector (numpy row / `ti.math.vec3`). -/
structure Vec3 where
  x : ℚ
  y : ℚ
  z : ℚ
  deriving DecidableEq, Repr

/-- A 2-component coordinate vector (numpy row / `ti.math.vec2`). -/
structure Vec2 where
  x : ℚ
  y : ℚ
  deriving DecidableEq, Repr

/-- An rgba colour (`ti.math.vec4`). -/
structure Vec4 where
  x : ℚ
  y : ℚ
  z : ℚ
  w : ℚ
  deriving DecidableEq, Repr

instance : Inhabited Vec3 := ⟨⟨0, 0, 0⟩⟩
instance : Inhabited Vec2 := ⟨⟨0, 0⟩⟩

/-- One landmark reported by the external model (`lm.x`, `lm.y`, `lm.z`). -/
structure Landmark where
  x : ℚ
  y : ℚ
  z : ℚ
  deriving DecidableEq, Repr

instance : Inhabited Landmark := ⟨⟨0, 0, 0⟩⟩

/-- A detected face is its list of landmarks (`face.landmark`). -/
abbrev Face := List Landmark

/-- Frames are opaque tokens: the module never inspects a frame itself, it only
hands it to the external model. -/
abbrev Frame := Nat

/-- The external MediaPipe model (`self.face_mesh.process`), as an opaque
function. `results.multi_face_landmarks` being `None` or empty is modelled by
the empty list. -/
abbrev Model := Frame → List Face

/-- The application context: `ctx.x` and `ctx.y` are the frame dimensions. -/
structure Ctx where
  x : ℚ
  y : ℚ

/-- `FaceMeshConnection`: a pair of landmark indices (`a`, `b`), `ti.i32`. -/
structure FaceMeshConnection where
  a : Int
  b : Int
  deriving DecidableEq, Repr

instance : Inhabited FaceMeshConnection := ⟨⟨0, 0⟩⟩

/-- A faces × landmarks array of 3-vectors (numpy array or taichi state). -/
abbrev Arr3 := Nat → Nat → Vec3

/-- A faces × landmarks array of 2-vectors (numpy array or taichi state). -/
abbrev Arr2 := Nat → Nat → Vec2

/-- Pointwise update of a 3-vector array at one (face, landmark) cell. -/
def upd3 (a : Arr3) (i j : Nat) (v : Vec3) : Arr3 :=
  fun i' j' => if i' = i ∧ j' = j then v else a i' j'

/-- Pointwise update of a 2-vector array at one (face, landmark) cell. -/
def upd2 (a : Arr2) (i j : Nat) (v : Vec2) : Arr2 :=
  fun i' j' => if i' = i ∧ j' = j then v else a i' j'

namespace MPFaceMesh

/-- `self.n_points = 478`. -/
def n_points : Nat := 478

/-- `pxnorm = np.array([1-lm.x, 1-lm.y, 1-lm.z])` (face_mesh.py line 137). -/
def pxnormOf (lm : Landmark) : Vec3 := ⟨1 - lm.x, 1 - lm.y, 1 - lm.z⟩

/-- `px = np.array([self.ctx.x*(1-lm.x), self.ctx.y*(1-lm.y)])`
(face_mesh.py line 138). -/
def pxOf (ctx : Ctx) (lm : Landmark) : Vec2 :=
  ⟨ctx.x * (1 - lm.x), ctx.y * (1 - lm.y)⟩

/-- The inner loop `for j, lm in enumerate(face.landmark)` of `detect`:
writes `pxnorm` and `px` rows for face `i`, starting at landmark index `j`. -/
def writeLms (ctx : Ctx) (i : Nat) (j : Nat) (lms : List Landmark)
    (a : Arr3 × Arr2) : Arr3 × Arr2 :=
  match lms with
  | [] => a
  | lm :: rest =>
      writeLms ctx i (j + 1) rest
        (upd3 a.1 i j (pxnormOf lm), upd2 a.2 i j (pxOf ctx lm))

/-- The outer loop `for i, face in enumerate(self.results.multi_face_landmarks)`
of `detect`, starting at face index `i`. -/
def writeFaces (ctx : Ctx) (i : Nat) (faces : List Face)
    (a : Arr3 × Arr2) : Arr3 × Arr2 :=
  match faces with
  | [] => a
  | f :: rest => writeFaces ctx (i + 1) rest (writeLms ctx i 0 f a)

/-- The mutable state of one `MPFaceMesh` instance: the ten connection tables
built by `setup_connections`, the per-instance numpy arrays `face_mesh_np`,
the shared store `ctx.s.face_mesh` (its `pxnorm` and `px` substates), the
`detected` scalar field, and `config['max_num_faces']`. -/
structure State where
  lips_conns : List FaceMeshConnection
  left_eye_conns : List FaceMeshConnection
  left_iris_conns : List FaceMeshConnection
  left_eyebrow_conns : List FaceMeshConnection
  right_eye_conns : List FaceMeshConnection
  right_eyebrow_conns : List FaceMeshConnection
  right_iris_conns : List FaceMeshConnection
  face_oval_conns : List FaceMeshConnection
  nose_conns : List FaceMeshConnection
  contours_conns : List FaceMeshConnection
  face_mesh_np_pxnorm : Arr3
  face_mesh_np_px : Arr2
  s_pxnorm : Arr3
  s_px : Arr2
  detected : Int
  max_num_faces : Nat

/-- `MPFaceMesh.detect`: `None` frame returns immediately; a frame on which
the model reports no face fills the shared store with zero and sets
`detected` to `-1`; otherwise the landmark loops write `face_mesh_np`, the
whole numpy arrays are copied into the shared store (`set_from_nddict`), and
`detected` becomes the number of reported faces. -/
def detect (ctx : Ctx) (model : Model) (st : State) (frame : Option Frame) :
    State :=
  match frame with
  | none => st
  | some f =>
      let faces := model f
      if faces.isEmpty then
        { st with
          s_pxnorm := fun _ _ => ⟨0, 0, 0⟩
          s_px := fun _ _ => ⟨0, 0⟩
          detected := -1 }
      else
        let a := writeFaces ctx 0 faces
          (st.face_mesh_np_pxnorm, st.face_mesh_np_px)
        { st with
          face_mesh_np_pxnorm := a.1
          face_mesh_np_px := a.2
          s_pxnorm := a.1
          s_px := a.2
          detected := (faces.length : Int) }

/-- Modelled from the spec: the vendor's named landmark-connection groups
(the module `face_mesh_connections`, star-imported by face_mesh.py, is not
under src/). The spec fixes only that each group is an immutable constant
list of landmark-index pairs sourced from the detector vendor's topology
definition, so each group is an abstract list of pairs here. -/
structure VendorTopology where
  FACEMESH_LIPS : List (Int × Int)
  FACEMESH_LEFT_EYE : List (Int × Int)
  FACEMESH_LEFT_IRIS : List (Int × Int)
  FACEMESH_LEFT_EYEBROW : List (Int × Int)
  FACEMESH_RIGHT_EYE : List (Int × Int)
  FACEMESH_RIGHT_EYEBROW : List (Int × Int)
  FACEMESH_RIGHT_IRIS : List (Int × Int)
  FACEMESH_FACE_OVAL : List (Int × Int)
  FACEMESH_NOSE : List (Int × Int)
  FACEMESH_CONTOURS : List (Int × Int)

/-- One connection table as built by `setup_connections`: entry `i` is
`FaceMeshConnection(*GROUP[i])`. -/
def connsOf (group : List (Int × Int)) : List FaceMeshConnection :=
  group.map fun p => ⟨p.1, p.2⟩

/-- `MPFaceMesh.__init__` followed by `setup_connections`: the ten connection
tables are copied from the vendor groups; `face_mesh_np` is `np.zeros`; the
shared store substates and the `detected` taichi field start zeroed. -/
def init (v : VendorTopology) (max_faces : Nat) : State where
  lips_conns := connsOf v.FACEMESH_LIPS
  left_eye_conns := connsOf v.FACEMESH_LEFT_EYE
  left_iris_conns := connsOf v.FACEMESH_LEFT_IRIS
  left_eyebrow_conns := connsOf v.FACEMESH_LEFT_EYEBROW
  right_eye_conns := connsOf v.FACEMESH_RIGHT_EYE
  right_eyebrow_conns := connsOf v.FACEMESH_RIGHT_EYEBROW
  right_iris_conns := connsOf v.FACEMESH_RIGHT_IRIS
  face_oval_conns := connsOf v.FACEMESH_FACE_OVAL
  nose_conns := connsOf v.FACEMESH_NOSE
  contours_conns := connsOf v.FACEMESH_CONTOURS
  face_mesh_np_pxnorm := fun _ _ => ⟨0, 0, 0⟩
  face_mesh_np_px := fun _ _ => ⟨0, 0⟩
  s_pxnorm := fun _ _ => ⟨0, 0, 0⟩
  s_px := fun _ _ => ⟨0, 0⟩
  detected := 0
  max_num_faces := max_faces

/-- One primitive emitted by the draw kernel: `self.px.circle(cx, cy, r, rgba)`
or `self.px.line(ax, ay, bx, by, rgba)`. -/
inductive DrawCall where
  | circle (cx cy : Int) (r : Int) (rgba : Vec4)
  | line (x0 y0 x1 y1 : Int) (rgba : Vec4)
  deriving DecidableEq, Repr

/-- `ti.cast(q, ti.i32)`: float-to-i32 cast, truncation toward zero. -/
def castI32 (q : ℚ) : Int := Int.tdiv q.num (q.den : Int)

/-- `ti.ndrange(a, b)` as the list of index pairs it iterates, row-major. -/
def ndrange2 (a b : Nat) : List (Nat × Nat) :=
  (List.range a).flatMap fun i => (List.range b).map fun j => (i, j)

/-- `draw_lm(face, lm, r, rgba)`: reads `ctx.s.face_mesh[face, lm].px`, casts,
and emits one circle. -/
def draw_lm (st : State) (face lm : Nat) (r : Int) (rgba : Vec4) : DrawCall :=
  let px := st.s_px face lm
  .circle (castI32 px.x) (castI32 px.y) r rgba

/-- `draw_conn(face, conn, rgba)`: reads `self.contours_conns[conn]` and the
two endpoint `px` entries, casts, and emits one line. The source indexes the
`contours_conns` field with `conn` ranging over `n_points`, past the field's
extent; the out-of-range read is modelled by `getD` with the zero connection
(the claims about this path depend only on the number of emitted lines). -/
def draw_conn (st : State) (face conn : Nat) (rgba : Vec4) : DrawCall :=
  let c := st.contours_conns.getD conn default
  let a := st.s_px face c.a.toNat
  let b := st.s_px face c.b.toNat
  .line (castI32 a.x) (castI32 a.y) (castI32 b.x) (castI32 b.y) rgba

/-- `draw_face_lms(r, rgba)`:
`for i, lm in ti.ndrange(self.detected[None], self.n_points): draw_lm`. -/
def draw_face_lms (st : State) (r : Int) (rgba : Vec4) : List DrawCall :=
  (ndrange2 st.detected.toNat n_points).map fun p => draw_lm st p.1 p.2 r rgba

/-- `draw_face_conns(rgba)`:
`for i, lm in ti.ndrange(self.detected[None], self.n_points): draw_conn` —
note the loop extent is `n_points`, not the contour-table length. -/
def draw_face_conns (st : State) (rgba : Vec4) : List DrawCall :=
  (ndrange2 st.detected.toNat n_points).map fun p => draw_conn st p.1 p.2 rgba

/-- The `draw` kernel as the trace of primitives it emits: when
`detected[None] > 0`, all landmark circles (radius 5, white) then all
connection lines (white); otherwise nothing. -/
def draw (st : State) : List DrawCall :=
  if st.detected > 0 then
    draw_face_lms st 5 ⟨1, 1, 1, 1⟩ ++ draw_face_conns st ⟨1, 1, 1, 1⟩
  else []

/-- Whether a draw call is a circle. -/
def isCircle : DrawCall → Bool
  | .circle _ _ _ _ => true
  | .line _ _ _ _ _ => false

/-- Whether a draw call is a line. -/
def isLine : DrawCall → Bool
  | .circle _ _ _ _ => false
  | .line _ _ _ _ _ => true

/-- Every attribute name assigned on `self` anywhere in class `MPFaceMesh`
(`__init__`, `setup_connections`, `detect`; `draw` and `__call__` assign
none). Transcribed assignment by assignment from face_mesh.py. -/
def assignedAttrs : List String :=
  ["ctx", "kwargs", "n_conns", "n_points", "config", "mpFaceMesh",
   "face_mesh", "face_mesh_np", "detected", "updater",
   "lips_conns", "left_eye_conns", "left_iris_conns", "left_eyebrow_conns",
   "right_eye_conns", "right_eyebrow_conns", "right_iris_conns",
   "face_oval_conns", "nose_conns", "contours_conns",
   "results"]

/-- Python attribute lookup `self.name`: succeeds exactly when the class ever
assigns the attribute, otherwise raises `AttributeError`. -/
def getSelfAttr (name : String) : Except String Unit :=
  if name ∈ assignedAttrs then .ok () else .error ("AttributeError: " ++ name)

/-- `draw_lm` with attribute lookups made explicit: it dereferences
`self.ctx` (for the state store read) and `self.px` (for `.circle`). -/
def draw_lmE (st : State) (face lm : Nat) (r : Int) (rgba : Vec4) :
    Except String DrawCall := do
  let _ ← getSelfAttr "ctx"
  let _ ← getSelfAttr "px"
  pure (draw_lm st face lm r rgba)

/-- `draw_conn` with attribute lookups made explicit: it dereferences
`self.contours_conns`, `self.ctx` and `self.px` (for `.line`). -/
def draw_connE (st : State) (face conn : Nat) (rgba : Vec4) :
    Except String DrawCall := do
  let _ ← getSelfAttr "contours_conns"
  let _ ← getSelfAttr "ctx"
  let _ ← getSelfAttr "px"
  pure (draw_conn st face conn rgba)

/-- `draw` with attribute lookups made explicit: the first failing lookup
aborts the kernel with that error. -/
def drawE (st : State) : Except String (List DrawCall) :=
  if st.detected > 0 then do
    let lms ← (ndrange2 st.detected.toNat n_points).mapM fun p =>
      draw_lmE st p.1 p.2 5 ⟨1, 1, 1, 1⟩
    let conns ← (ndrange2 st.detected.toNat n_points).mapM fun p =>
      draw_connE st p.1 p.2 ⟨1, 1, 1, 1⟩
    pure (lms ++ conns)
  else pure []

/-- The states an `MPFaceMesh` instance can reach: constructed by `__init__`
with some configured `max_faces`, then stepped by any number of `detect`
calls. `__call__` is `self.updater(frame)`, where the external `Updater`
helper either forwards the frame to `detect` or does nothing, so its steps
are covered by `detectStep` and by staying in place. `draw` reads but never
writes the state. -/
inductive Reachable (v : VendorTopology) (ctx : Ctx) (model : Model) :
    State → Prop where
  | init_state : ∀ max_faces, Reachable v ctx model (init v max_faces)
  | detectStep : ∀ st frame, Reachable v ctx model st →
      Reachable v ctx model (detect ctx model st frame)

/-- A small concrete vendor topology used to evaluate the development on
closed inputs (only the shapes of the groups matter to the claims; the
vendor's real `FACEMESH_CONTOURS` has on the order of a hundred entries,
likewise far fewer than 478). -/
def sampleTopology : VendorTopology where
  FACEMESH_LIPS := [(61, 146)]
  FACEMESH_LEFT_EYE := [(263, 249)]
  FACEMESH_LEFT_IRIS := [(474, 475)]
  FACEMESH_LEFT_EYEBROW := [(276, 283)]
  FACEMESH_RIGHT_EYE := [(33, 7)]
  FACEMESH_RIGHT_EYEBROW := [(46, 53)]
  FACEMESH_RIGHT_IRIS := [(469, 470)]
  FACEMESH_FACE_OVAL := [(10, 338)]
  FACEMESH_NOSE := [(168, 6)]
  FACEMESH_CONTOURS := [(0, 1), (1, 2), (2, 0)]

/-- A concrete context with frame dimensions 640 × 480. -/
def sampleCtx : Ctx := ⟨640, 480⟩

/-- A freshly constructed instance whose detected-count has been set to 1. -/
def stateDet1 : State := { init sampleTopology 1 with detected := 1 }

/-- A freshly constructed instance whose detected-count has been set to the
no-face sentinel. -/
def stateDetNeg : State := { init sampleTopology 1 with detected := -1 }

/-- A concrete model that never reports a face. -/
def modelNone : Model := fun _ => []

/-- A concrete model reporting two one-landmark faces on frame 0 and one
one-landmark face on every other frame. -/
def modelShrink : Model := fun f =>
  if f = 0 then [[⟨1, 1, 1⟩], [⟨1, 1, 1⟩]] else [[⟨0, 0, 0⟩]]

/-- A concrete model reporting one full 478-landmark face on every frame. -/
def modelFull : Model := fun _ => [List.replicate 478 ⟨1/2, 1/4, 1/8⟩]

/-! ### Pointwise characterization of the landmark write loops -/

theorem writeLms_apply_fst (ctx : Ctx) (i : Nat) (lms : List Landmark) :
    ∀ (j : Nat) (a : Arr3 × Arr2) (i' j' : Nat),
    (writeLms ctx i j lms a).1 i' j' =
      if i' = i ∧ j ≤ j' ∧ j' < j + lms.length
      then pxnormOf (lms.getD (j' - j) default)
      else a.1 i' j' := by
  induction lms with
  | nil =>
      intro j a i' j'
      rw [writeLms, if_neg]
      rintro ⟨-, h1, h2⟩
      simp at h2
      omega
  | cons lm rest ih =>
      intro j a i' j'
      rw [writeLms, ih]
      simp only [List.length_cons]
      by_cases hi : i' = i
      · subst hi
        rcases Nat.lt_trichotomy j' j with hj | hj | hj
        · rw [if_neg (by omega), if_neg (by omega)]
          simp [upd3, hj.ne]
        · subst hj
          rw [if_neg (by omega), if_pos ⟨rfl, by omega, by omega⟩]
          simp [upd3]
        · by_cases hr : j' < j + (rest.length + 1)
          · rw [if_pos ⟨rfl, by omega, by omega⟩, if_pos ⟨rfl, by omega, hr⟩]
            have he : j' - j = (j' - (j + 1)) + 1 := by omega
            rw [he, List.getD_cons_succ]
          · rw [if_neg (by omega), if_neg (by omega)]
            simp [upd3, hj.ne']
      · rw [if_neg (by rintro ⟨h, -⟩; exact hi h),
          if_neg (by rintro ⟨h, -⟩; exact hi h)]
        simp [upd3, hi]

theorem writeLms_apply_snd (ctx : Ctx) (i : Nat) (lms : List Landmark) :
    ∀ (j : Nat) (a : Arr3 × Arr2) (i' j' : Nat),
    (writeLms ctx i j lms a).2 i' j' =
      if i' = i ∧ j ≤ j' ∧ j' < j + lms.length
      then pxOf ctx (lms.getD (j' - j) default)
      else a.2 i' j' := by
  induction lms with
  | nil =>
      intro j a i' j'
      rw [writeLms, if_neg]
      rintro ⟨-, h1, h2⟩
      simp at h2
      omega
  | cons lm rest ih =>
      intro j a i' j'
      rw [writeLms, ih]
      simp only [List.length_cons]
      by_cases hi : i' = i
      · subst hi
        rcases Nat.lt_trichotomy j' j with hj | hj | hj
        · rw [if_neg (by omega), if_neg (by omega)]
          simp [upd2, hj.ne]
        · subst hj
          rw [if_neg (by omega), if_pos ⟨rfl, by omega, by omega⟩]
          simp [upd2]
        · by_cases hr : j' < j + (rest.length + 1)
          · rw [if_pos ⟨rfl, by omega, by omega⟩, if_pos ⟨rfl, by omega, hr⟩]
            have he : j' - j = (j' - (j + 1)) + 1 := by omega
            rw [he, List.getD_cons_succ]
          · rw [if_neg (by omega), if_neg (by omega)]
            simp [upd2, hj.ne']
      · rw [if_neg (by rintro ⟨h, -⟩; exact hi h),
          if_neg (by rintro ⟨h, -⟩; exact hi h)]
        simp [upd2, hi]

theorem writeFaces_apply_fst (ctx : Ctx) (faces : List Face) :
    ∀ (i : Nat) (a : Arr3 × Arr2) (i' j' : Nat),
    (writeFaces ctx i faces a).1 i' j' =
      if i ≤ i' ∧ i' < i + faces.length ∧
          j' < (faces.getD (i' - i) default).length
      then pxnormOf ((faces.getD (i' - i) default).getD j' default)
      else a.1 i' j' := by
  induction faces with
  | nil =>
      intro i a i' j'
      rw [writeFaces, if_neg]
      rintro ⟨h1, h2, -⟩
      simp at h2
      omega
  | cons f rest ih =>
      intro i a i' j'
      rw [writeFaces, ih, writeLms_apply_fst]
      simp only [List.length_cons]
      rcases Nat.lt_trichotomy i' i with hi | hi | hi
      · rw [if_neg (by omega), if_neg (by omega), if_neg (by omega)]
      · subst hi
        have hz : i' - i' = 0 := by omega
        rw [if_neg (by omega), hz, List.getD_cons_zero]
        by_cases hj : j' < f.length
        · rw [if_pos ⟨rfl, by omega, by omega⟩, if_pos ⟨by omega, by omega, hj⟩]
          simp
        · rw [if_neg (by omega), if_neg (by omega)]
      · rw [if_neg (show ¬(i' = i ∧ 0 ≤ j' ∧ j' < 0 + f.length) by omega)]
        have he : i' - i = (i' - (i + 1)) + 1 := by omega
        rw [he, List.getD_cons_succ]
        by_cases hr : i' < i + 1 + rest.length ∧
            j' < (rest.getD (i' - (i + 1)) default).length
        · rw [if_pos ⟨by omega, hr.1, hr.2⟩, if_pos ⟨by omega, by omega, hr.2⟩]
        · rw [if_neg (by omega), if_neg (by omega)]

theorem writeFaces_apply_snd (ctx : Ctx) (faces : List Face) :
    ∀ (i : Nat) (a : Arr3 × Arr2) (i' j' : Nat),
    (writeFaces ctx i faces a).2 i' j' =
      if i ≤ i' ∧ i' < i + faces.length ∧
          j' < (faces.getD (i' - i) default).length
      then pxOf ctx ((faces.getD (i' - i) default).getD j' default)
      else a.2 i' j' := by
  induction faces with
  | nil =>
      intro i a i' j'
      rw [writeFaces, if_neg]
      rintro ⟨h1, h2, -⟩
      simp at h2
      omega
  | cons f rest ih =>
      intro i a i' j'
      rw [writeFaces, ih, writeLms_apply_snd]
      simp only [List.length_cons]
      rcases Nat.lt_trichotomy i' i with hi | hi | hi
      · rw [if_neg (by omega), if_neg (by omega), if_neg (by omega)]
      · subst hi
        have hz : i' - i' = 0 := by omega
        rw [if_neg (by omega), hz, List.getD_cons_zero]
        by_cases hj : j' < f.length
        · rw [if_pos ⟨rfl, by omega, by omega⟩, if_pos ⟨by omega, by omega, hj⟩]
          simp
        · rw [if_neg (by omega), if_neg (by omega)]
      · rw [if_neg (show ¬(i' = i ∧ 0 ≤ j' ∧ j' < 0 + f.length) by omega)]
        have he : i' - i = (i' - (i + 1)) + 1 := by omega
        rw [he, List.getD_cons_succ]
        by_cases hr : i' < i + 1 + rest.length ∧
            j' < (rest.getD (i' - (i + 1)) default).length
        · rw [if_pos ⟨by omega, hr.1, hr.2⟩, if_pos ⟨by omega, by omega, hr.2⟩]
        · rw [if_neg (by omega), if_neg (by omega)]

/-! ### Helper lemmas: iteration counts, attribute errors, detect unfolding -/

theorem ndrange2_length (a b : Nat) : (ndrange2 a b).length = a * b := by
  induction a with
  | zero => simp [ndrange2]
  | succ n ih =>
      rw [ndrange2, List.range_succ, List.flatMap_append, List.length_append,
        ← ndrange2, ih]
      simp [Nat.succ_mul]

theorem isCircle_draw_lm (st : State) (face lm : Nat) (r : Int) (rgba : Vec4) :
    isCircle (draw_lm st face lm r rgba) = true := rfl

theorem isLine_draw_lm (st : State) (face lm : Nat) (r : Int) (rgba : Vec4) :
    isLine (draw_lm st face lm r rgba) = false := rfl

theorem isCircle_draw_conn (st : State) (face conn : Nat) (rgba : Vec4) :
    isCircle (draw_conn st face conn rgba) = false := rfl

theorem isLine_draw_conn (st : State) (face conn : Nat) (rgba : Vec4) :
    isLine (draw_conn st face conn rgba) = true := rfl

/-- When `detected > 0`, the kernel emits `detected * n_points` circles and
`detected * n_points` lines: both loops run over
`ndrange(detected, n_points)`. -/
theorem draw_countP (st : State) (h : 0 < st.detected) :
    (draw st).countP isCircle = st.detected.toNat * n_points ∧
    (draw st).countP isLine = st.detected.toNat * n_points := by
  rw [draw, if_pos h, draw_face_lms, draw_face_conns]
  rw [List.countP_append, List.countP_append, List.countP_map, List.countP_map,
    List.countP_map, List.countP_map]
  have hc1 : List.countP
      (isCircle ∘ fun p : Nat × Nat => draw_lm st p.1 p.2 5 ⟨1, 1, 1, 1⟩)
      (ndrange2 st.detected.toNat n_points) =
      (ndrange2 st.detected.toNat n_points).length :=
    List.countP_eq_length.mpr fun p _ => rfl
  have hc2 : List.countP
      (isCircle ∘ fun p : Nat × Nat => draw_conn st p.1 p.2 ⟨1, 1, 1, 1⟩)
      (ndrange2 st.detected.toNat n_points) = 0 :=
    List.countP_eq_zero.mpr fun p _ => by simp [Function.comp, isCircle_draw_conn]
  have hl1 : List.countP
      (isLine ∘ fun p : Nat × Nat => draw_lm st p.1 p.2 5 ⟨1, 1, 1, 1⟩)
      (ndrange2 st.detected.toNat n_points) = 0 :=
    List.countP_eq_zero.mpr fun p _ => by simp [Function.comp, isLine_draw_lm]
  have hl2 : List.countP
      (isLine ∘ fun p : Nat × Nat => draw_conn st p.1 p.2 ⟨1, 1, 1, 1⟩)
      (ndrange2 st.detected.toNat n_points) =
      (ndrange2 st.detected.toNat n_points).length :=
    List.countP_eq_length.mpr fun p _ => rfl
  rw [hc1, hc2, hl1, hl2, ndrange2_length]
  omega

/-- Mapping a function that always fails over a nonempty list fails. -/
theorem mapM_except_error {α β : Type} (l : List α) (f : α → Except String β)
    (e : String) (hl : l ≠ []) (hf : ∀ x, f x = .error e) :
    l.mapM f = .error e := by
  cases l with
  | nil => exact absurd rfl hl
  | cons x xs =>
      rw [List.mapM_cons, hf x]
      rfl

theorem detect_none (ctx : Ctx) (model : Model) (st : State) :
    detect ctx model st none = st := rfl

theorem detect_noface (ctx : Ctx) (model : Model) (st : State) (f : Frame)
    (h : model f = []) :
    detect ctx model st (some f) =
      { st with
        s_pxnorm := fun _ _ => ⟨0, 0, 0⟩
        s_px := fun _ _ => ⟨0, 0⟩
        detected := -1 } := by
  simp [detect, h]

theorem detect_found (ctx : Ctx) (model : Model) (st : State) (f : Frame)
    (h : model f ≠ []) :
    detect ctx model st (some f) =
      { st with
        face_mesh_np_pxnorm :=
          (writeFaces ctx 0 (model f)
            (st.face_mesh_np_pxnorm, st.face_mesh_np_px)).1
        face_mesh_np_px :=
          (writeFaces ctx 0 (model f)
            (st.face_mesh_np_pxnorm, st.face_mesh_np_px)).2
        s_pxnorm :=
          (writeFaces ctx 0 (model f)
            (st.face_mesh_np_pxnorm, st.face_mesh_np_px)).1
        s_px :=
          (writeFaces ctx 0 (model f)
            (st.face_mesh_np_pxnorm, st.face_mesh_np_px)).2
        detected := ((model f).length : Int) } := by
  have hne : (model f).isEmpty = false := by
    simp [List.isEmpty_iff, h]
  simp [detect, hne]

/-- Re-running the write loops on the same faces rewrites the same cells with
the same values. -/
theorem writeFaces_idem (ctx : Ctx) (faces : List Face) (a : Arr3 × Arr2) :
    writeFaces ctx 0 faces
      ((writeFaces ctx 0 faces a).1, (writeFaces ctx 0 faces a).2) =
      writeFaces ctx 0 faces a := by
  have h1 : (writeFaces ctx 0 faces
      ((writeFaces ctx 0 faces a).1, (writeFaces ctx 0 faces a).2)).1 =
      (writeFaces ctx 0 faces a).1 := by
    funext i' j'
    rw [writeFaces_apply_fst]
    by_cases hc : 0 ≤ i' ∧ i' < 0 + faces.length ∧
        j' < (faces.getD (i' - 0) default).length
    · rw [if_pos hc, writeFaces_apply_fst, if_pos hc]
    · rw [if_neg hc]
  have h2 : (writeFaces ctx 0 faces
      ((writeFaces ctx 0 faces a).1, (writeFaces ctx 0 faces a).2)).2 =
      (writeFaces ctx 0 faces a).2 := by
    funext i' j'
    rw [writeFaces_apply_snd]
    by_cases hc : 0 ≤ i' ∧ i' < 0 + faces.length ∧
        j' < (faces.getD (i' - 0) default).length
    · rw [if_pos hc, writeFaces_apply_snd, if_pos hc]
    · rw [if_neg hc]
  exact Prod.ext h1 h2

/-! ### Claim theorems -/

/-- C6: whenever the detected-count is nonpositive (the -1 sentinel or 0),
one invocation of `draw` emits no circle and no line: the trace is empty, so
the pixel surface is untouched. -/
theorem C6_nonpositive_detected_draws_nothing (st : State)
    (h : st.detected ≤ 0) : draw st = [] := by
  rw [draw, if_neg (by omega)]

/-- Witness for C6 at a concrete state with `detected = -1`. -/
theorem C6_nonpositive_detected_draws_nothing_witness :
    stateDetNeg.detected ≤ 0 ∧ draw stateDetNeg = [] :=
  ⟨by decide, C6_nonpositive_detected_draws_nothing stateDetNeg (by decide)⟩

/-- C7: calling `detect` with a `None` frame returns immediately: the state
(shared store, numpy arrays, detected-count) is unchanged, and the result
does not depend on the external model, which is never invoked. -/
theorem C7_none_frame_is_noop (ctx : Ctx) (m1 m2 : Model) (st : State) :
    detect ctx m1 st none = st ∧ detect ctx m1 st none = detect ctx m2 st none :=
  ⟨rfl, rfl⟩

/-- C9: with the external model a (deterministic) function of the frame,
running `detect` twice in succession on the same frame leaves the instance in
the same state as running it once. -/
theorem C9_detect_idempotent (ctx : Ctx) (model : Model) (st : State)
    (frame : Option Frame) :
    detect ctx model (detect ctx model st frame) frame =
      detect ctx model st frame := by
  cases frame with
  | none => rfl
  | some f =>
      by_cases h : model f = []
      · rw [detect_noface ctx model st f h]
        rw [detect_noface ctx model _ f h]
      · rw [detect_found ctx model st f h]
        rw [detect_found ctx model _ f h]
        rw [writeFaces_idem]

/-- C1 (code bug, evaluated at a failing input): at a state with
detected-count 1 and a 3-entry contours table, one invocation of `draw`
emits 1×478 landmark circles as claimed, but also 1×478 connection lines —
one per `ndrange(detected, n_points)` iteration — not 1×|contour table| = 3:
`draw_face_conns` iterates `self.n_points` instead of `self.n_conns`,
indexing `contours_conns` past its extent. -/
theorem C1_draw_conns_count_bug :
    (draw stateDet1).countP isCircle = 1 * 478 ∧
    (draw stateDet1).countP isLine = 1 * 478 ∧
    stateDet1.contours_conns.length = 3 ∧
    (draw stateDet1).countP isLine ≠ 1 * stateDet1.contours_conns.length := by
  have h := draw_countP stateDet1 (by decide)
  have hd : stateDet1.detected.toNat = 1 := rfl
  refine ⟨?_, ?_, rfl, ?_⟩
  · rw [h.1, hd]
    norm_num [n_points]
  · rw [h.2, hd]
    norm_num [n_points]
  · rw [h.2, hd]
    decide

/-- C2: `"px"` is not among the attributes the class ever assigns, and with
a positive detected-count the draw kernel's first primitive already
dereferences `self.px`, so the drawing path ends in an undefined-attribute
error instead of a pixel write. -/
theorem C2_draw_dereferences_unassigned_px (st : State)
    (h : 0 < st.detected) :
    "px" ∉ assignedAttrs ∧ drawE st = .error "AttributeError: px" := by
  refine ⟨by decide, ?_⟩
  simp only [drawE]
  rw [if_pos h]
  have hl : ndrange2 st.detected.toNat n_points ≠ [] := by
    apply List.ne_nil_of_length_pos
    rw [ndrange2_length]
    have h1 : 0 < st.detected.toNat := by omega
    have h2 : 0 < n_points := by norm_num [n_points]
    exact Nat.mul_pos h1 h2
  rw [mapM_except_error (ndrange2 st.detected.toNat n_points)
    (fun p => draw_lmE st p.1 p.2 5 ⟨1, 1, 1, 1⟩) "AttributeError: px" hl
    fun p => rfl]
  rfl

/-- Witness for C2 at a concrete state with `detected = 1`. -/
theorem C2_draw_dereferences_unassigned_px_witness :
    (0 : Int) < stateDet1.detected ∧
    ("px" ∉ assignedAttrs ∧ drawE stateDet1 = .error "AttributeError: px") :=
  ⟨by decide, C2_draw_dereferences_unassigned_px stateDet1 (by decide)⟩

/-- C3: on a non-null frame for which the model reports no face, `detect`
zeroes every entry of both shared coordinate substates (`pxnorm` and `px`,
all faces, all landmarks) and sets the detected-count to -1; `detect` is a
total function, so no exception is raised. -/
theorem C3_noface_zeroes_store_and_sets_sentinel (ctx : Ctx) (model : Model)
    (st : State) (f : Frame) (h : model f = []) :
    (∀ i j, (detect ctx model st (some f)).s_pxnorm i j = ⟨0, 0, 0⟩ ∧
      (detect ctx model st (some f)).s_px i j = ⟨0, 0⟩) ∧
    (detect ctx model st (some f)).detected = -1 := by
  rw [detect_noface ctx model st f h]
  exact ⟨fun i j => ⟨rfl, rfl⟩, rfl⟩

/-- Witness for C3 with a concrete model that reports no face. -/
theorem C3_noface_zeroes_store_and_sets_sentinel_witness :
    modelNone 0 = [] ∧
    ((∀ i j,
      (detect sampleCtx modelNone (init sampleTopology 1)
        (some 0)).s_pxnorm i j = ⟨0, 0, 0⟩ ∧
      (detect sampleCtx modelNone (init sampleTopology 1)
        (some 0)).s_px i j = ⟨0, 0⟩) ∧
    (detect sampleCtx modelNone (init sampleTopology 1)
      (some 0)).detected = -1) :=
  ⟨rfl, C3_noface_zeroes_store_and_sets_sentinel sampleCtx modelNone
    (init sampleTopology 1) 0 rfl⟩

/-- C4: on a non-null frame for which the model reports K ≤ max_faces faces of
478 landmarks each, after `detect` the detected-count equals K and exactly the
K×478 entries for faces 0..K-1 and landmarks 0..477 are written — they hold
the landmark values in both the shared store and the numpy arrays, while all
entries outside that region are untouched. (Values are rationals in this
embedding, hence finite by construction.) -/
theorem C4_detect_writes_exactly_K_faces (ctx : Ctx) (model : Model)
    (st : State) (f : Frame) (K : Nat)
    (hK : (model f).length = K) (hne : model f ≠ [])
    (hmax : K ≤ st.max_num_faces)
    (h478 : ∀ face ∈ model f, face.length = n_points) :
    (detect ctx model st (some f)).detected = (K : Int) ∧
    (∀ i j, i < K → j < n_points →
      (detect ctx model st (some f)).s_pxnorm i j =
        pxnormOf (((model f).getD i default).getD j default) ∧
      (detect ctx model st (some f)).s_px i j =
        pxOf ctx (((model f).getD i default).getD j default) ∧
      (detect ctx model st (some f)).face_mesh_np_pxnorm i j =
        (detect ctx model st (some f)).s_pxnorm i j ∧
      (detect ctx model st (some f)).face_mesh_np_px i j =
        (detect ctx model st (some f)).s_px i j) ∧
    (∀ i j, K ≤ i ∨ n_points ≤ j →
      (detect ctx model st (some f)).face_mesh_np_pxnorm i j =
        st.face_mesh_np_pxnorm i j ∧
      (detect ctx model st (some f)).face_mesh_np_px i j =
        st.face_mesh_np_px i j) := by
  rw [detect_found ctx model st f hne]
  dsimp only
  subst hK
  refine ⟨rfl, ?_, ?_⟩
  · intro i j hi hj
    have hlen : ((model f).getD i default).length = n_points := by
      rw [List.getD_eq_getElem _ _ hi]
      exact h478 _ (List.getElem_mem hi)
    have hcond : 0 ≤ i ∧ i < 0 + (model f).length ∧
        j < ((model f).getD (i - 0) default).length := by
      refine ⟨Nat.zero_le _, by omega, ?_⟩
      rw [Nat.sub_zero, hlen]
      exact hj
    refine ⟨?_, ?_, rfl, rfl⟩
    · rw [writeFaces_apply_fst, if_pos hcond, Nat.sub_zero]
    · rw [writeFaces_apply_snd, if_pos hcond, Nat.sub_zero]
  · intro i j hij
    have hcond : ¬(0 ≤ i ∧ i < 0 + (model f).length ∧
        j < ((model f).getD (i - 0) default).length) := by
      rcases hij with hi | hj
      · rintro ⟨-, hlt, -⟩
        omega
      · rintro ⟨-, hlt, hjl⟩
        have hlen : ((model f).getD (i - 0) default).length = n_points := by
          rw [Nat.sub_zero, List.getD_eq_getElem _ _ (by omega)]
          exact h478 _ (List.getElem_mem (by omega))
        omega
    constructor
    · rw [writeFaces_apply_fst, if_neg hcond]
    · rw [writeFaces_apply_snd, if_neg hcond]

/-- Witness for C4: a model reporting one full 478-landmark face. -/
theorem C4_detect_writes_exactly_K_faces_witness :
    (modelFull 0).length = 1 ∧ modelFull 0 ≠ [] ∧
    1 ≤ (init sampleTopology 1).max_num_faces ∧
    (∀ face ∈ modelFull 0, face.length = n_points) ∧
    ((detect sampleCtx modelFull (init sampleTopology 1)
        (some 0)).detected = (1 : Int) ∧
    (∀ i j, i < 1 → j < n_points →
      (detect sampleCtx modelFull (init sampleTopology 1)
        (some 0)).s_pxnorm i j =
        pxnormOf (((modelFull 0).getD i default).getD j default) ∧
      (detect sampleCtx modelFull (init sampleTopology 1)
        (some 0)).s_px i j =
        pxOf sampleCtx (((modelFull 0).getD i default).getD j default) ∧
      (detect sampleCtx modelFull (init sampleTopology 1)
        (some 0)).face_mesh_np_pxnorm i j =
        (detect sampleCtx modelFull (init sampleTopology 1)
          (some 0)).s_pxnorm i j ∧
      (detect sampleCtx modelFull (init sampleTopology 1)
        (some 0)).face_mesh_np_px i j =
        (detect sampleCtx modelFull (init sampleTopology 1)
          (some 0)).s_px i j) ∧
    (∀ i j, 1 ≤ i ∨ n_points ≤ j →
      (detect sampleCtx modelFull (init sampleTopology 1)
        (some 0)).face_mesh_np_pxnorm i j =
        (init sampleTopology 1).face_mesh_np_pxnorm i j ∧
      (detect sampleCtx modelFull (init sampleTopology 1)
        (some 0)).face_mesh_np_px i j =
        (init sampleTopology 1).face_mesh_np_px i j)) :=
  ⟨rfl, by decide, by decide,
   by
     intro face hf
     simp only [modelFull, List.mem_singleton] at hf
     rw [hf, List.length_replicate]
     rfl,
   C4_detect_writes_exactly_K_faces sampleCtx modelFull
     (init sampleTopology 1) 0 1 rfl (by decide) (by decide)
     (by
       intro face hf
       simp only [modelFull, List.mem_singleton] at hf
       rw [hf, List.length_replicate]
       rfl)⟩

/-- C5: every pixel-space coordinate stored by `detect` equals
`(ctx.x * (1 - lm.x), ctx.y * (1 - lm.y))` for the model's normalized
landmark `lm` of that face. -/
theorem C5_pixel_coordinate_formula (ctx : Ctx) (model : Model) (st : State)
    (f : Frame) (i j : Nat) (hne : model f ≠ [])
    (hi : i < (model f).length)
    (hj : j < ((model f).get ⟨i, hi⟩).length) :
    (detect ctx model st (some f)).s_px i j =
      ⟨ctx.x * (1 - (((model f).get ⟨i, hi⟩).get ⟨j, hj⟩).x),
       ctx.y * (1 - (((model f).get ⟨i, hi⟩).get ⟨j, hj⟩).y)⟩ := by
  rw [detect_found ctx model st f hne]
  dsimp only
  rw [writeFaces_apply_snd]
  have h1 : (model f).getD (i - 0) default = (model f).get ⟨i, hi⟩ := by
    rw [Nat.sub_zero, List.getD_eq_getElem _ _ hi]
    exact (List.get_eq_getElem (model f) ⟨i, hi⟩).symm
  have hcond : 0 ≤ i ∧ i < 0 + (model f).length ∧
      j < ((model f).getD (i - 0) default).length := by
    refine ⟨Nat.zero_le _, by omega, ?_⟩
    rw [h1]
    exact hj
  rw [if_pos hcond, h1]
  have h2 : ((model f).get ⟨i, hi⟩).getD j default =
      ((model f).get ⟨i, hi⟩).get ⟨j, hj⟩ := by
    rw [List.getD_eq_getElem _ _ hj]
    exact (List.get_eq_getElem ((model f).get ⟨i, hi⟩) ⟨j, hj⟩).symm
  rw [h2, pxOf]

/-- Witness for C5 at face 0, landmark 0 of a concrete detection. -/
theorem C5_pixel_coordinate_formula_witness :
    modelShrink 1 ≠ [] ∧
    (detect sampleCtx modelShrink (init sampleTopology 1) (some 1)).s_px 0 0 =
      ⟨sampleCtx.x * (1 - (((modelShrink 1).get ⟨0, by decide⟩).get
          ⟨0, by decide⟩).x),
       sampleCtx.y * (1 - (((modelShrink 1).get ⟨0, by decide⟩).get
          ⟨0, by decide⟩).y)⟩ :=
  ⟨by decide,
   C5_pixel_coordinate_formula sampleCtx modelShrink (init sampleTopology 1) 1
     0 0 (by decide) (by decide) (by decide)⟩

/-- C8: in every reachable state — constructed, then stepped by any sequence
of `detect` calls (`__call__` forwards to `detect` through the scheduler, and
`draw` is a pure reader) — all ten topology connection tables equal,
entry-by-entry, the copies of the vendor's constant connection lists built at
construction: no operation ever mutates them. -/
theorem C8_connection_tables_invariant (v : VendorTopology) (ctx : Ctx)
    (model : Model) (st : State) (h : Reachable v ctx model st) :
    st.lips_conns = connsOf v.FACEMESH_LIPS ∧
    st.left_eye_conns = connsOf v.FACEMESH_LEFT_EYE ∧
    st.left_iris_conns = connsOf v.FACEMESH_LEFT_IRIS ∧
    st.left_eyebrow_conns = connsOf v.FACEMESH_LEFT_EYEBROW ∧
    st.right_eye_conns = connsOf v.FACEMESH_RIGHT_EYE ∧
    st.right_eyebrow_conns = connsOf v.FACEMESH_RIGHT_EYEBROW ∧
    st.right_iris_conns = connsOf v.FACEMESH_RIGHT_IRIS ∧
    st.face_oval_conns = connsOf v.FACEMESH_FACE_OVAL ∧
    st.nose_conns = connsOf v.FACEMESH_NOSE ∧
    st.contours_conns = connsOf v.FACEMESH_CONTOURS := by
  induction h with
  | init_state max_faces =>
      exact ⟨rfl, rfl, rfl, rfl, rfl, rfl, rfl, rfl, rfl, rfl⟩
  | detectStep st frame hr ih =>
      rcases frame with - | f
      · exact ih
      · by_cases he : model f = []
        · rw [detect_noface ctx model st f he]
          exact ih
        · rw [detect_found ctx model st f he]
          exact ih

/-- Witness for C8 at a freshly constructed instance. -/
theorem C8_connection_tables_invariant_witness :
    (init sampleTopology 1).lips_conns = connsOf sampleTopology.FACEMESH_LIPS ∧
    (init sampleTopology 1).left_eye_conns =
      connsOf sampleTopology.FACEMESH_LEFT_EYE ∧
    (init sampleTopology 1).left_iris_conns =
      connsOf sampleTopology.FACEMESH_LEFT_IRIS ∧
    (init sampleTopology 1).left_eyebrow_conns =
      connsOf sampleTopology.FACEMESH_LEFT_EYEBROW ∧
    (init sampleTopology 1).right_eye_conns =
      connsOf sampleTopology.FACEMESH_RIGHT_EYE ∧
    (init sampleTopology 1).right_eyebrow_conns =
      connsOf sampleTopology.FACEMESH_RIGHT_EYEBROW ∧
    (init sampleTopology 1).right_iris_conns =
      connsOf sampleTopology.FACEMESH_RIGHT_IRIS ∧
    (init sampleTopology 1).face_oval_conns =
      connsOf sampleTopology.FACEMESH_FACE_OVAL ∧
    (init sampleTopology 1).nose_conns =
      connsOf sampleTopology.FACEMESH_NOSE ∧
    (init sampleTopology 1).contours_conns =
      connsOf sampleTopology.FACEMESH_CONTOURS :=
  C8_connection_tables_invariant sampleTopology sampleCtx modelNone
    (init sampleTopology 1) (Reachable.init_state 1)

/-- C10: when a detection reporting K > 0 faces follows one that wrote more
faces, the shared-store entries for face indices ≥ K are not reset: the
successful branch never zeroes the store, it copies the numpy arrays whole,
so those entries keep the previous detection's values. -/
theorem C10_stale_faces_retained (ctx : Ctx) (model : Model) (st : State)
    (f1 f2 : Frame) (h1 : model f1 ≠ []) (h2 : model f2 ≠ [])
    (i j : Nat) (hi : (model f2).length ≤ i) :
    (detect ctx model (detect ctx model st (some f1)) (some f2)).detected =
      ((model f2).length : Int) ∧
    (detect ctx model (detect ctx model st (some f1)) (some f2)).s_pxnorm i j =
      (detect ctx model st (some f1)).s_pxnorm i j ∧
    (detect ctx model (detect ctx model st (some f1)) (some f2)).s_px i j =
      (detect ctx model st (some f1)).s_px i j := by
  rw [detect_found ctx model st f1 h1]
  rw [detect_found ctx model _ f2 h2]
  dsimp only
  refine ⟨rfl, ?_, ?_⟩
  · rw [writeFaces_apply_fst, if_neg (by rintro ⟨-, hlt, -⟩; omega)]
  · rw [writeFaces_apply_snd, if_neg (by rintro ⟨-, hlt, -⟩; omega)]

/-- Witness for C10: two faces detected on frame 0, then one face on frame 1;
face index 1 keeps its frame-0 coordinates. -/
theorem C10_stale_faces_retained_witness :
    modelShrink 0 ≠ [] ∧ modelShrink 1 ≠ [] ∧ (modelShrink 1).length ≤ 1 ∧
    ((detect sampleCtx modelShrink
        (detect sampleCtx modelShrink (init sampleTopology 2) (some 0))
        (some 1)).detected = ((modelShrink 1).length : Int) ∧
    (detect sampleCtx modelShrink
        (detect sampleCtx modelShrink (init sampleTopology 2) (some 0))
        (some 1)).s_pxnorm 1 0 =
      (detect sampleCtx modelShrink (init sampleTopology 2)
        (some 0)).s_pxnorm 1 0 ∧
    (detect sampleCtx modelShrink
        (detect sampleCtx modelShrink (init sampleTopology 2) (some 0))
        (some 1)).s_px 1 0 =
      (detect sampleCtx modelShrink (init sampleTopology 2)
        (some 0)).s_px 1 0) :=
  ⟨by decide, by decide, by decide,
   C10_stale_faces_retained sampleCtx modelShrink (init sampleTopology 2)
     0 1 (by decide) (by decide) 1 0 (by decide)⟩

end MPFaceMesh
